import Mathlib

/-!
Verification of the qpay_client repository's authenticated-request engine.

The development shallowly embeds the v2 clients
(`src/qpay_client/v2/client.py`, `src/qpay_client/v2/sync_client.py`),
the error classifier (`src/qpay_client/v2/utils.py`,
`src/qpay_client/v2/error.py`) and the legacy client variants
(`src/qpay_client/v2/qpay_client.py`, `src/qpay_client/v2/qpay_client_sync.py`,
`src/qpay_client/qpay_client.py`).  Machine floats for delays are modelled
as rationals and clock times as integer seconds; HTTP traffic is modelled
as a scripted list of responses consumed in order; exceptions are modelled
with `Except`.
-/

/-- Routes the clients hit: the original data-plane request, the full
credential exchange `POST /auth/token`, and the refresh exchange
`POST /auth/refresh`. -/
inductive Route where
  | original
  | authToken
  | authRefresh
  deriving DecidableEq, Repr

/-- Token payload returned by the auth endpoints
(schema `TokenResponse`): access/refresh tokens, their lifetimes in
seconds, token type, scope. -/
structure TokenPayload where
  access_token : String
  refresh_token : String
  expires_in : ℤ
  refresh_expires_in : ℤ
  token_type : String := "Bearer"
  scope : String := ""
  deriving DecidableEq, Repr

/-- The parts of a JSON response body the clients inspect: the `message`
field of error bodies, a decodable token payload, and the `count` field of
payment-check bodies.  `none` for `message` models a JSON object without a
`message` key. -/
structure JsonBody where
  message : Option String := none
  token : Option TokenPayload := none
  count : Option Nat := none
  deriving DecidableEq, Repr

/-- An HTTP response as the clients see it: status code, the parsed JSON
body (`none` when the body is not valid JSON), and the raw body text. -/
structure HttpResponse where
  status : Nat
  json : Option JsonBody := none
  text : String := ""
  deriving DecidableEq, Repr

/-- httpx `Response.is_success`: 2xx. -/
def HttpResponse.is_success (r : HttpResponse) : Prop :=
  200 ≤ r.status ∧ r.status < 300

/-- httpx `Response.is_error`: 4xx or 5xx. -/
def HttpResponse.is_error (r : HttpResponse) : Prop :=
  400 ≤ r.status ∧ r.status < 600

/-- httpx `Response.is_server_error`: 5xx. -/
def HttpResponse.is_server_error (r : HttpResponse) : Prop :=
  500 ≤ r.status ∧ r.status < 600

instance (r : HttpResponse) : Decidable r.is_success := by
  unfold HttpResponse.is_success; infer_instance

instance (r : HttpResponse) : Decidable r.is_error := by
  unfold HttpResponse.is_error; infer_instance

instance (r : HttpResponse) : Decidable r.is_server_error := by
  unfold HttpResponse.is_server_error; infer_instance

/-- Exceptions the embedded code can raise.  `qpay` is `QPayError` from
`error.py` (the DomainError of the spec); `valueError` is the `ValueError`
Python raises when an enum coercion fails; `validationError` stands for
pydantic decode failures; `authError` is `AuthError`; `deadlock` marks an
await on the already-held client lock (the call never returns);
`streamExhausted` is a model artifact for running off the end of the
scripted responses. -/
inductive PyError where
  | qpay (status : Nat) (errorKey : String)
  | valueError
  | validationError
  | authError
  | deadlock
  | streamExhausted
  deriving DecidableEq, Repr

deriving instance DecidableEq for Except

/-- Values of the `QPayErrorCode` int-enum in `error.py` (lines 4-11). -/
def qpayErrorCodes : List Nat := [200, 400, 401, 403, 409, 422, 500]

/-- Values of the `QPayErrorKey` str-enum in `error.py` (lines 14-66). -/
def qpayErrorKeys : List String :=
  ["ACCOUNT_BANK_DUPLICATED", "ACCOUNT_SELECTION_INVALID",
   "AUTHENTICATION_FAILED", "BANK_ACCOUNT_NOTFOUND", "BANK_MCC_ALREADY_ADDED",
   "BANK_MCC_NOT_FOUND", "CARD_TERMINAL_NOTFOUND", "CLIENT_NOTFOUND",
   "CLIENT_USERNAME_DUPLICATED", "CUSTOMER_DUPLICATE", "CUSTOMER_NOTFOUND",
   "CUSTOMER_REGISTER_INVALID", "EBARIMT_CANCEL_NOTSUPPERDED",
   "EBARIMT_NOT_REGISTERED", "EBARIMT_QR_CODE_INVALID", "INFORM_NOTFOUND",
   "INPUT_CODE_REGISTERED", "INPUT_NOTFOUND", "INVALID_AMOUNT",
   "INVALID_OBJECT_TYPE", "INVOICE_ALREADY_CANCELED", "INVOICE_CODE_INVALID",
   "INVOICE_CODE_REGISTERED", "INVOICE_LINE_REQUIRED", "INVOICE_NOTFOUND",
   "INVOICE_PAID", "INVOICE_RECEIVER_DATA_ADDRESS_REQUIRED",
   "INVOICE_RECEIVER_DATA_EMAIL_REQUIRED",
   "INVOICE_RECEIVER_DATA_PHONE_REQUIRED", "INVOICE_RECEIVER_DATA_REQUIRED",
   "MAX_AMOUNT_ERR", "MCC_NOTFOUND", "MERCHANT_ALREADY_REGISTERED",
   "MERCHANT_INACTIVE", "MERCHANT_NOTFOUND", "MIN_AMOUNT_ERR",
   "NO_CREDENDIALS", "OBJECT_DATA_ERROR", "P2P_TERMINAL_NOTFOUND",
   "PAYMENT_ALREADY_CANCELED", "PAYMENT_NOT_PAID", "PAYMENT_NOTFOUND",
   "PERMISSION_DENIED", "QRACCOUNT_INACTIVE", "QRACCOUNT_NOTFOUND",
   "QRCODE_NOTFOUND", "QRCODE_USED", "SENDER_BRANCH_DATA_REQUIRED",
   "TAX_LINE_REQUIRED", "TAX_PRODUCT_CODE_REQUIRED",
   "TRANSACTION_NOT_APPROVED", "TRANSACTION_REQUIRED"]

/-- `safe_json(response).get("message", "")` from `utils.py`: for a JSON
body, its `message` field or `""`; for a non-JSON body, `safe_json` returns
`{"message": response.text}`, so the raw text. -/
def error_message (r : HttpResponse) : String :=
  match r.json with
  | some b => b.message.getD ""
  | none => r.text

/-- `handle_error` from `utils.py` (lines 16-22).  It builds
`QPayError(status_code=QPayErrorCode(status), error_key=QPayErrorKey(msg))`;
either enum constructor raises `ValueError` when its argument is not one of
the enumerated values, in which case `ValueError` (not `QPayError`)
propagates. -/
def handle_error (r : HttpResponse) : PyError :=
  if r.status ∈ qpayErrorCodes ∧ error_message r ∈ qpayErrorKeys then
    .qpay r.status (error_message r)
  else
    .valueError

/-- Sleep before retry attempt `attempt` in `client.py` line 151 /
line 309 and `sync_client.py` line 139 / line 270:
`delay ** (attempt - 1) + random() * jitter`, with `draw ∈ [0, 1)` the
uniform sample returned by `random()`. -/
def sleep_seconds (delay : ℚ) (attempt : ℕ) (draw jitter : ℚ) : ℚ :=
  delay ^ (attempt - 1) + draw * jitter

/-- The spec's backoff term (`spec.md` paragraph 4.3/4.4, and the bound pinned by
`tests/unit_test/test_utils.py::test_exponential_backoff`):
`base * 2^(attempt-1) + random(0, jitterMax)`. -/
def backoff_spec_seconds (base : ℚ) (attempt : ℕ) (draw jitter : ℚ) : ℚ :=
  base * 2 ^ (attempt - 1) + draw * jitter

/-- Stored access-token expiry after a successful exchange in
`qpay_client_sync.py` line 106 and `v2/qpay_client.py` line 63:
`data.expires_in - self._token_leeway` (no issue-time term). -/
def sync_client_stored_access_expiry (expires_in token_leeway : ℚ) : ℚ :=
  expires_in - token_leeway

/-- Stored access-token expiry after a successful exchange in the legacy
`qpay_client/qpay_client.py` line 71: `time.time() + expires_in - 60`. -/
def legacy_stored_access_expiry (now expires_in : ℚ) : ℚ :=
  now + expires_in - 60

/-- The expiry the claim asserts (spec paragraph 4.1 `update`): issue time plus
the server-supplied lifetime. -/
def claimed_access_expiry (now expires_in : ℚ) : ℚ :=
  now + expires_in

/-- Decision taken by one `get_token` call. -/
inductive TokenAction where
  | authenticate
  | refresh
  | useCached
  deriving DecidableEq, Repr

/-- Branching of `get_token` in `v2/qpay_client.py` lines 90-95:
authenticate when `_access_token is None`, refresh when
`self._token_expiry > time.time()`, otherwise return the cached token. -/
def v2_qpay_get_token_action (access_token : Option String)
    (token_expiry now : ℚ) : TokenAction :=
  if access_token = none then .authenticate
  else if now < token_expiry then .refresh
  else .useCached

/-- Branching of `refresh_access_token` in `v2/qpay_client.py` lines 69-72:
it performs a full `authenticate` when `_refresh_token is None or
self._refresh_token_expiry > time.time()`. -/
def v2_qpay_refresh_does_authenticate (refresh_token : Option String)
    (refresh_expiry now : ℚ) : Prop :=
  refresh_token = none ∨ now < refresh_expiry

instance (rt : Option String) (e n : ℚ) :
    Decidable (v2_qpay_refresh_does_authenticate rt e n) := by
  unfold v2_qpay_refresh_does_authenticate; infer_instance

/-- Modelled from the spec: `qpay_client/v2/auth.py` (class `QpayAuthState`)
is imported by both v2 clients but absent from `src/`; this structure
follows spec paragraphs 3 and 4.1 (CredentialState): bearer token and expiry,
refresh token and expiry, normalized token type, scope. -/
structure QpayAuthState where
  access_token : Option String := none
  access_token_expiry : ℤ := 0
  refresh_token : Option String := none
  refresh_token_expiry : ℤ := 0
  token_type : String := "Bearer"
  scope : String := ""
  deriving DecidableEq, Repr

/-- Modelled from the spec: `hasAccessToken()` — true iff an access token
has ever been set. -/
def QpayAuthState.has_access_token (s : QpayAuthState) : Prop :=
  s.access_token ≠ none

/-- Modelled from the spec: `isAccessExpired(leeway)` — true iff
`now + leeway >= accessTokenExpiry`. -/
def QpayAuthState.is_access_expired (s : QpayAuthState) (now leeway : ℤ) : Prop :=
  s.access_token_expiry ≤ now + leeway

/-- Modelled from the spec: `isRefreshExpired(leeway)` — true iff
`now + leeway >= refreshTokenExpiry`. -/
def QpayAuthState.is_refresh_expired (s : QpayAuthState) (now leeway : ℤ) : Prop :=
  s.refresh_token_expiry ≤ now + leeway

instance (s : QpayAuthState) : Decidable s.has_access_token := by
  unfold QpayAuthState.has_access_token; infer_instance

instance (s : QpayAuthState) (now leeway : ℤ) :
    Decidable (s.is_access_expired now leeway) := by
  unfold QpayAuthState.is_access_expired; infer_instance

instance (s : QpayAuthState) (now leeway : ℤ) :
    Decidable (s.is_refresh_expired now leeway) := by
  unfold QpayAuthState.is_refresh_expired; infer_instance

/-- Modelled from the spec: `getAccessToken()` — fails with `AuthError` if
no token has been set yet. -/
def QpayAuthState.get_access_token (s : QpayAuthState) : Except PyError String :=
  match s.access_token with
  | some t => .ok t
  | none => .error .authError

/-- Modelled from the spec: token-type normalization to title case (first
letter capitalized, rest lowercase). -/
def normalize_to_capital (s : String) : String :=
  (s.take 1).toUpper ++ (s.drop 1).toLower

/-- Modelled from the spec: `update(tokenExchangeResult)` — atomically
replaces access token, refresh token, both expiries (issue time plus
server-supplied lifetime), scope and token type. -/
def QpayAuthState.update (s : QpayAuthState) (now : ℤ) (t : TokenPayload) :
    QpayAuthState :=
  { s with
    access_token := some t.access_token,
    access_token_expiry := now + t.expires_in,
    refresh_token := some t.refresh_token,
    refresh_token_expiry := now + t.refresh_expires_in,
    token_type := normalize_to_capital t.token_type,
    scope := t.scope }

/-- Branching of `get_token` in `client.py` lines 218-224 (and
`sync_client.py` lines 194-199): authenticate when no access token was ever
obtained or the refresh token is expired beyond leeway, refresh when the
access token is expired beyond leeway, otherwise use the cached token. -/
def client_get_token_action (st : QpayAuthState) (now leeway : ℤ) : TokenAction :=
  if ¬ st.has_access_token ∨ st.is_refresh_expired now leeway then .authenticate
  else if st.is_access_expired now leeway then .refresh
  else .useCached

/-- Execution environment of one logical call against the async v2 client:
the credential state, the scripted transport responses still to come, the
requests sent so far (`sends`), the current time and the configured
leeway.  Time is held fixed during a call. -/
structure Env where
  auth : QpayAuthState := {}
  stream : List HttpResponse
  sends : List Route := []
  now : ℤ := 0
  leeway : ℤ := 60
  deriving DecidableEq, Repr

/-- Default `retries` of `QPayClient._request` in `client.py` line 132,
used by the nested auth-endpoint requests, which pass no `retries`. -/
def defaultRetries : Nat := 5

/-- One transport send (`self._client.request(...)`): consumes the next
scripted response and records the route. -/
def send (route : Route) (env : Env) : Except PyError HttpResponse × Env :=
  match env.stream with
  | [] => (.error .streamExhausted, env)
  | r :: rest =>
      (.ok r, { env with stream := rest, sends := env.sends ++ [route] })

/-- The 5xx retry loop of `_request` (`client.py` lines 147-154): up to `k`
further sends, stopping at the first 2xx response; a non-2xx response
(even a 4xx) keeps the loop going. -/
def retry_loop (k : Nat) (route : Route) (cur : HttpResponse) (env : Env) :
    Except PyError HttpResponse × Env :=
  match k with
  | 0 => (.ok cur, env)
  | Nat.succ k =>
      match send route env with
      | (.error e, env') => (.error e, env')
      | (.ok r, env') =>
          if r.is_success then (.ok r, env') else retry_loop k route r env'

/-- Final step of `_request` (`client.py` lines 156-159): raise the
classification of the response when it has an error status, otherwise
return it. -/
def finish (res : Except PyError HttpResponse × Env) :
    Except PyError HttpResponse × Env :=
  match res with
  | (.error e, env) => (.error e, env)
  | (.ok r, env) =>
      if r.is_error then (.error (handle_error r), env) else (.ok r, env)

/-- `_request` as invoked while the client lock is already held (the
auth-endpoint requests issued from `_authenticate_nolock` and
`_refresh_access_token_nolock`).  A 401 here makes the code await
`self._refresh_access_token()` on the non-reentrant lock it already holds:
the call never completes (`deadlock`). -/
def request_locked (retries : Nat) (route : Route) (env : Env) :
    Except PyError HttpResponse × Env :=
  finish
    (match send route env with
     | (.error e, env') => (.error e, env')
     | (.ok r1, env') =>
         if r1.status = 401 then (.error .deadlock, env')
         else if r1.is_server_error then retry_loop retries route r1 env'
         else (.ok r1, env'))

/-- pydantic `TokenResponse.model_validate(response.json())`: fails unless
the body decodes as a token payload. -/
def decode_token (r : HttpResponse) : Except PyError TokenPayload :=
  match r.json with
  | some b =>
      match b.token with
      | some t => .ok t
      | none => .error .validationError
  | none => .error .validationError

/-- `_authenticate_nolock` (`client.py` lines 184-194): POST `/auth/token`
through `_request`, decode the token payload, update the credential
state. -/
def authenticate_nolock (env : Env) : Except PyError Unit × Env :=
  match request_locked defaultRetries .authToken env with
  | (.error e, env') => (.error e, env')
  | (.ok r, env') =>
      match decode_token r with
      | .error e => (.error e, env')
      | .ok t => (.ok (), { env' with auth := env'.auth.update env'.now t })

/-- `_refresh_access_token_nolock` (`client.py` lines 196-216): no-op when
the access token is not expired beyond leeway; full authenticate when the
refresh token is expired; otherwise POST `/auth/refresh` through
`_request` — which itself raises on any 4xx/5xx, so the trailing
`authenticate` fallback is reached only for the non-success non-error
(3xx) responses `_request` passes through. -/
def refresh_access_token_nolock (env : Env) : Except PyError Unit × Env :=
  if ¬ env.auth.is_access_expired env.now env.leeway then (.ok (), env)
  else if env.auth.is_refresh_expired env.now env.leeway then
    authenticate_nolock env
  else
    match request_locked defaultRetries .authRefresh env with
    | (.error e, env') => (.error e, env')
    | (.ok r, env') =>
        if r.is_success then
          match decode_token r with
          | .error e => (.error e, env')
          | .ok t => (.ok (), { env' with auth := env'.auth.update env'.now t })
        else authenticate_nolock env'

/-- `_request` for a data-plane call (`client.py` lines 127-159), entered
with the lock free: send; on 401 run the locked refresh wrapper (the lock
is free, so it reduces to `_refresh_access_token_nolock`) and resend once;
on 5xx run the retry loop; finally raise on an error status. -/
def request (retries : Nat) (route : Route) (env : Env) :
    Except PyError HttpResponse × Env :=
  finish
    (match send route env with
     | (.error e, env') => (.error e, env')
     | (.ok r1, env') =>
         if r1.status = 401 then
           match refresh_access_token_nolock env' with
           | (.error e, env'') => (.error e, env'')
           | (.ok _, env'') => send route env''
         else if r1.is_server_error then retry_loop retries route r1 env'
         else (.ok r1, env'))

/-- `get_token` (`client.py` lines 218-224): dispatch on the branch
condition, then return the cached access token. -/
def get_token (env : Env) : Except PyError String × Env :=
  match
    (match client_get_token_action env.auth env.now env.leeway with
     | .authenticate => authenticate_nolock env
     | .refresh => refresh_access_token_nolock env
     | .useCached => (.ok (), env)) with
  | (.error e, env') => (.error e, env')
  | (.ok _, env') => (env'.auth.get_access_token, env')

/-- The bare-status operations (`invoice_cancel`, `payment_cancel`,
`payment_refund`, `subscription_cancel`, e.g. `client.py` lines 257-268):
build headers (which runs `get_token`), send through `_request`, return
`response.status_code`. -/
def invoice_cancel_run (retries : Nat) (env : Env) : Except PyError Nat × Env :=
  match get_token env with
  | (.error e, env') => (.error e, env')
  | (.ok _, env') =>
      match request retries .original env' with
      | (.error e, env'') => (.error e, env'')
      | (.ok r, env'') => (.ok r.status, env'')

/-- Polling loop of `payment_check` (`client.py` lines 305-323) over the
scripted `count` fields of successive successful check responses: up to
`k` further checks, breaking at the first positive count, returning the
last data otherwise.  Result: `(number of checks performed so far, final
count)`; `none` when the script runs out. -/
def payment_check_loop (k : Nat) (counts : List Nat) (cur checks : Nat) :
    Option (Nat × Nat) :=
  match k with
  | 0 => some (checks, cur)
  | Nat.succ k =>
      match counts with
      | [] => none
      | c :: rest =>
          if 0 < c then some (checks + 1, c)
          else payment_check_loop k rest c (checks + 1)

/-- `payment_check` (`client.py` lines 281-323): one initial check,
returning immediately on a positive count, otherwise up to
`payment_retries` further polls. -/
def payment_check_run (payment_retries : Nat) (counts : List Nat) :
    Option (Nat × Nat) :=
  match counts with
  | [] => none
  | c :: rest =>
      if 0 < c then some (1, c)
      else payment_check_loop payment_retries rest c 1

/-- Shared state of the cooperative two-caller model of `get_token` on one
client (`client.py` lines 120, 172-194, 218-224): how many full
authenticate exchanges have completed, whether the credential state holds
a token, and who holds the `asyncio.Lock`. -/
structure ConcState where
  authCount : Nat := 0
  authed : Bool := false
  lock0 : Bool := false
  lock1 : Bool := false
  pc0 : Nat := 0
  pc1 : Nat := 0
  deriving DecidableEq, Repr

/-- Program counter of one `get_token` caller on a freshly constructed
client: 0 — evaluate the branch condition (`not has_access_token() or
is_refresh_expired(...)`, here: no token yet); 1 — await the client lock in
`_authenticate`; 2 — lock held, issue POST `/auth/token` and suspend on the
network (`_authenticate_nolock` re-checks nothing); 3 — resume: decode,
`update` the credential state, release the lock; 4 — done, read the cached
token.  A step of a caller blocked on the lock leaves the state
unchanged. -/
def conc_step (s : ConcState) (i : Bool) : ConcState :=
  match (if i then s.pc1 else s.pc0) with
  | 0 =>
      if s.authed then
        if i then { s with pc1 := 4 } else { s with pc0 := 4 }
      else
        if i then { s with pc1 := 1 } else { s with pc0 := 1 }
  | 1 =>
      if s.lock0 ∨ s.lock1 then s
      else if i then { s with lock1 := true, pc1 := 2 }
      else { s with lock0 := true, pc0 := 2 }
  | 2 => if i then { s with pc1 := 3 } else { s with pc0 := 3 }
  | 3 =>
      if i then
        { s with authCount := s.authCount + 1, authed := true,
                 lock1 := false, pc1 := 4 }
      else
        { s with authCount := s.authCount + 1, authed := true,
                 lock0 := false, pc0 := 4 }
  | _ => s

/-- Run a cooperative schedule (a list of caller identities) from a given
state. -/
def conc_run (sched : List Bool) (s : ConcState) : ConcState :=
  sched.foldl conc_step s

/-- A 401 response with a JSON body. -/
def r401 : HttpResponse := { status := 401, json := some {} }

/-- A plain 200 response. -/
def r200 : HttpResponse := { status := 200, json := some {} }

/-- A 502 response whose JSON body carries an unrecognized message. -/
def r502 : HttpResponse := { status := 502, json := some { message := some "oops" } }

/-- A 400 response whose message is one of the enumerated error keys. -/
def r400key : HttpResponse :=
  { status := 400, json := some { message := some "AUTHENTICATION_FAILED" } }

/-- A decodable token payload. -/
def tokOK : TokenPayload :=
  { access_token := "tok_new", refresh_token := "ref_new",
    expires_in := 3600, refresh_expires_in := 7200 }

/-- A successful token-exchange response. -/
def rTok : HttpResponse := { status := 200, json := some { token := some tokOK } }

/-- A credential state whose access and refresh tokens are present and far
from expiry (expiries at t = 1000000, clock at 0, leeway 60). -/
def validAuth : QpayAuthState :=
  { access_token := some "tok", access_token_expiry := 1000000,
    refresh_token := some "ref", refresh_token_expiry := 1000000 }

/-- Scenario for C2: valid cached token, first response 401, retry 200. -/
def C2env : Env := { auth := validAuth, stream := [r401, r200] }

/-- Scenario for C3: five consecutive 502 responses, retry budget 3. -/
def C3env : Env := { auth := validAuth, stream := [r502, r502, r502, r502, r502] }

/-- Scenario for C6: access token expired, refresh token valid; the
refresh exchange answers 400 with a recognized error key, and a fresh
authenticate exchange would succeed (a decodable token response waits
behind it in the script). -/
def C6env : Env :=
  { auth := { access_token := some "old", access_token_expiry := 0,
              refresh_token := some "ref", refresh_token_expiry := 1000000 },
    stream := [r400key, rTok], now := 1000 }

/-- Scenario for C10: a single 404 response with an unrecognized message. -/
def C10env : Env :=
  { auth := validAuth,
    stream := [{ status := 404, json := some { message := some "NF" } }] }

/-- Scenario for the C10 witness: a single 204 cancel response, served to a
client with a valid cached token. -/
def C10wenv : Env := { auth := validAuth, stream := [{ status := 204 }] }

/-- Interleaving for C9: caller A checks the branch condition, takes the
lock and suspends on the network send of `POST /auth/token`; caller B then
checks the (still unauthenticated) state, queues on the lock; A finishes
and releases; B acquires, performs its own unconditional exchange. -/
def conc_sched_double_auth : List Bool :=
  [false, false, false, true, true, false, true, true, true]

-- THEOREMS START HERE

/-- C4: the claim says every retry sleep equals `base * 2^(k-1)` plus the
jitter term.  The code computes `delay ** (k-1)` plus the jitter term
instead: at attempt 1 with the default `delay = 0.5` and a zero jitter
draw, the code sleeps 1 second while the claimed formula gives 0.5
seconds. -/
theorem C4_sleep_is_power_not_exponential_backoff :
    sleep_seconds (1/2) 1 0 (1/2) = 1 ∧
    backoff_spec_seconds (1/2) 1 0 (1/2) = 1/2 ∧
    sleep_seconds (1/2) 1 0 (1/2) ≠ backoff_spec_seconds (1/2) 1 0 (1/2) := by
  refine ⟨by norm_num [sleep_seconds], by norm_num [backoff_spec_seconds], ?_⟩
  norm_num [sleep_seconds, backoff_spec_seconds]

/-- C7: the claim says the stored expiry equals issue time plus the
server-supplied lifetime.  `qpay_client_sync.py` (and `v2/qpay_client.py`)
store `expires_in - leeway` with no issue-time term: at
`now = 1700000000`, `expires_in = 3600`, `leeway = 60` the stored expiry is
3540, not 1700003600, and lies before `now` itself, so the token is
instantly considered expired.  The legacy v1 client stores
`now + expires_in - 60`, also not `now + expires_in`. -/
theorem C7_stored_expiry_misses_issue_time :
    sync_client_stored_access_expiry 3600 60 = 3540 ∧
    claimed_access_expiry 1700000000 3600 = 1700003600 ∧
    sync_client_stored_access_expiry 3600 60 ≠
      claimed_access_expiry 1700000000 3600 ∧
    sync_client_stored_access_expiry 3600 60 < 1700000000 ∧
    legacy_stored_access_expiry 1700000000 3600 ≠
      claimed_access_expiry 1700000000 3600 := by
  refine ⟨?_, ?_, ?_, ?_, ?_⟩ <;>
    norm_num [sync_client_stored_access_expiry, claimed_access_expiry,
      legacy_stored_access_expiry]

/-- C8: the claim says raising the DomainError always succeeds, with error
key `""` for malformed bodies.  In the code `QPayErrorCode(404)` and
`QPayErrorKey("")` raise `ValueError`, so for a 404 response with body `{}`
(and likewise for a 400 with a non-JSON body) the error-reporting step
itself fails with `ValueError` instead of raising a DomainError. -/
theorem C8_handle_error_fails_on_unmapped_status_and_key :
    handle_error { status := 404, json := some {} } = .valueError ∧
    handle_error { status := 400, json := some {} } = .valueError ∧
    handle_error { status := 400, json := none, text := "<html>oops</html>" }
      = .valueError ∧
    PyError.valueError ≠ .qpay 404 "" := by
  refine ⟨?_, ?_, ?_, by simp⟩ <;> decide

/-- C1: the claim requires that when the cached access token is present and
not expired (and the refresh token is valid), `get_token` returns the
cached token with no exchange.  In `v2/qpay_client.py` the comparison is
inverted: with an unexpired token (`token_expiry = 2000 > now = 1000`) the
code takes the refresh branch, and `refresh_access_token` in turn performs
a full authenticate exchange because its guard is inverted the same way. -/
theorem C1_v2_qpay_get_token_inverted :
    v2_qpay_get_token_action (some "tok") 2000 1000 = .refresh ∧
    v2_qpay_refresh_does_authenticate (some "ref") 2000 1000 ∧
    v2_qpay_get_token_action (some "tok") 2000 1000 ≠ .useCached := by
  refine ⟨by decide, by decide, by decide⟩

/-- C2 counterexample: with a cached access token that does not look
expired, a first response of 401 leads to no refresh exchange at all —
`_refresh_access_token_nolock` returns at its expiry guard — and the
request is simply resent with the same credentials.  The claim asserts a
refresh exchange is actually performed here. -/
theorem C2_counterexample_refresh_skipped :
    ¬ C2env.auth.is_access_expired C2env.now C2env.leeway ∧
    (request 5 .original C2env).1 = .ok r200 ∧
    (request 5 .original C2env).2.sends = [Route.original, Route.original] ∧
    Route.authRefresh ∉ (request 5 .original C2env).2.sends ∧
    Route.authToken ∉ (request 5 .original C2env).2.sends := by
  refine ⟨by decide, by decide, by decide, by decide, by decide⟩

/-- C3: with `retries = 3` and five consecutive 502 responses, `_request`
performs exactly 4 attempts (1 + 3 retries, the fifth scripted response is
never consumed) and then raises — but `QPayErrorCode(502)` raises
`ValueError`, so the final error is a `ValueError`, not the DomainError the
claim promises. -/
theorem C3_5xx_exhaustion_raises_value_error :
    (request 3 .original C3env).1 = .error .valueError ∧
    (request 3 .original C3env).2.sends =
      [Route.original, Route.original, Route.original, Route.original] ∧
    (request 3 .original C3env).2.stream.length = 1 ∧
    ∀ c k, (request 3 .original C3env).1 ≠ .error (.qpay c k) := by
  have h1 : (request 3 .original C3env).1 = .error .valueError := by decide
  refine ⟨h1, by decide, by decide, fun c k hck => ?_⟩
  rw [h1] at hck
  simp at hck

/-- C6: with the access token expired and the refresh token valid, a 400
answer to the refresh exchange makes the nested `_request` raise
`QPayError(400, AUTHENTICATION_FAILED)` before the `else: authenticate`
fallback can run: no authenticate exchange happens (the decodable token
response sitting behind it in the script is never consumed), and the
caller sees the exception the claim says must not propagate. -/
theorem C6_refresh_failure_raises_instead_of_fallback :
    C6env.auth.is_access_expired C6env.now C6env.leeway ∧
    ¬ C6env.auth.is_refresh_expired C6env.now C6env.leeway ∧
    (refresh_access_token_nolock C6env).1 =
      .error (.qpay 400 "AUTHENTICATION_FAILED") ∧
    (refresh_access_token_nolock C6env).2.sends = [Route.authRefresh] ∧
    Route.authToken ∉ (refresh_access_token_nolock C6env).2.sends ∧
    (refresh_access_token_nolock C6env).2.stream = [rTok] := by
  refine ⟨by decide, by decide, by decide, by decide, by decide, by decide⟩

/-- C9: on a freshly constructed client, the cooperative interleaving in
which caller B evaluates `get_token`'s branch condition while caller A is
suspended on the network inside `_authenticate_nolock` ends with BOTH
callers completing a full authenticate exchange — `_authenticate_nolock`
performs no re-check after the lock is acquired — so two exchanges happen
where the claim allows exactly one. -/
theorem C9_two_concurrent_get_token_double_authenticate :
    (conc_run conc_sched_double_auth {}).authCount = 2 ∧
    (conc_run conc_sched_double_auth {}).pc0 = 4 ∧
    (conc_run conc_sched_double_auth {}).pc1 = 4 ∧
    (conc_run conc_sched_double_auth {}).authed = true := by
  refine ⟨by decide, by decide, by decide, by decide⟩

/-- C10 counterexample: a final response with error status 404 makes the
executor raise `ValueError` (the `QPayErrorCode(404)` coercion fails), not
a DomainError, refuting the claimed "raises a DomainError if the final
response has an error status" at this input. -/
theorem C10_counterexample_404_not_domain_error :
    ({ status := 404, json := some { message := some "NF" } } : HttpResponse).is_error ∧
    (request 5 .original C10env).1 = .error .valueError ∧
    ∀ c k, (request 5 .original C10env).1 ≠ .error (.qpay c k) := by
  have h1 : (request 5 .original C10env).1 = .error .valueError := by decide
  refine ⟨by decide, h1, fun c k hck => ?_⟩
  rw [h1] at hck
  simp at hck

theorem payment_check_loop_skips_zeros (zs : List Nat) :
    ∀ k cur n c rest, zs.length + 1 ≤ k → (∀ x ∈ zs, x = 0) → 0 < c →
      payment_check_loop k (zs ++ c :: rest) cur n = some (n + zs.length + 1, c) := by
  induction zs with
  | nil =>
      intro k cur n c rest hk _ hc
      match k, hk with
      | Nat.succ k, _ => simp [payment_check_loop, hc]
  | cons z zs ih =>
      intro k cur n c rest hk hz hc
      have hz0 : z = 0 := hz z (by simp)
      subst hz0
      match k, hk with
      | Nat.succ k, hk =>
        have hk' : zs.length + 1 ≤ k := by simp at hk; omega
        have h := ih k 0 (n + 1) c rest hk' (fun x hx => hz x (by simp [hx])) hc
        simp [payment_check_loop, h]
        omega

theorem payment_check_loop_all_zero (k : Nat) :
    ∀ rest n, (∀ x ∈ rest.take k, x = 0) → k ≤ rest.length →
      payment_check_loop k rest 0 n = some (n + k, 0) := by
  induction k with
  | zero => intro rest n _ _; simp [payment_check_loop]
  | succ k ih =>
      intro rest n hz hk
      match rest, hk with
      | r :: rest, hk =>
        have hr : r = 0 := hz r (by simp)
        subst hr
        have h := ih rest (n + 1) (fun x hx => hz x (by simp [List.take_succ_cons, hx]))
          (by simp at hk; omega)
        simp [payment_check_loop, h]
        omega

/-- C5: `payment_check` returns at the first positive settlement count —
`m` leading zero-count responses within the budget give `m + 1` checks and
the positive response; an all-zero budget gives exactly `1 + retries`
checks and the last zero-count result with no error; a budget of 0 means
exactly one check. -/
theorem C5_settlement_poll_first_positive_or_budget
    (retries : Nat) (zeros rest counts : List Nat) (c : Nat)
    (h1 : zeros.length ≤ retries) (h2 : ∀ x ∈ zeros, x = 0) (h3 : 0 < c)
    (h4 : ∀ x ∈ counts.take (retries + 1), x = 0)
    (h5 : retries + 1 ≤ counts.length) :
    payment_check_run retries (zeros ++ c :: rest) = some (zeros.length + 1, c) ∧
    payment_check_run retries counts = some (retries + 1, 0) ∧
    (∀ c0 rest0, payment_check_run 0 (c0 :: rest0) = some (1, c0)) := by
  refine ⟨?_, ?_, ?_⟩
  · cases zeros with
    | nil => simp [payment_check_run, h3]
    | cons z zs =>
        have hz0 : z = 0 := h2 z (by simp)
        subst hz0
        have hk' : zs.length + 1 ≤ retries := by simpa using h1
        have h := payment_check_loop_skips_zeros zs retries 0 1 c rest hk'
          (fun x hx => h2 x (by simp [hx])) h3
        simp [payment_check_run, h]
        omega
  · match counts, h5 with
    | c0 :: rest1, h5 =>
      have hc0 : c0 = 0 := h4 c0 (by simp [List.take_succ_cons])
      subst hc0
      have hrest : ∀ x ∈ rest1.take retries, x = 0 := fun x hx =>
        h4 x (by simp [List.take_succ_cons, hx])
      have h := payment_check_loop_all_zero retries rest1 1 hrest (by simpa using h5)
      simp [payment_check_run, h]
      omega
  · intro c0 rest0
    by_cases hc : 0 < c0
    · simp [payment_check_run, hc]
    · have hc0 : c0 = 0 := by omega
      subst hc0
      simp [payment_check_run, payment_check_loop]

/-- C5 witness: `[0, 1]` with budget 1 gives 2 checks and count 1; `[0, 0]`
with budget 1 gives 2 checks and the zero-count result with no error;
budget 0 means exactly one check. -/
theorem C5_settlement_poll_witness :
    payment_check_run 1 [0, 1] = some (2, 1) ∧
    payment_check_run 1 [0, 0] = some (2, 0) ∧
    payment_check_run 0 [0, 7] = some (1, 0) := by
  have h := C5_settlement_poll_first_positive_or_budget 1 [0] [] [0, 0] 1
    (by decide) (by decide) (by decide) (by decide) (by decide)
  exact ⟨by simpa using h.1, h.2.1, by simpa using h.2.2 0 [7]⟩

theorem finish_snd (p : Except PyError HttpResponse × Env) : (finish p).2 = p.2 := by
  rcases p with ⟨res, env⟩
  cases res with
  | error e => rfl
  | ok r => by_cases h : r.is_error <;> simp [finish, h]

theorem request_401_not_expired
    (retries : Nat) (env : Env) (r1 r2 : HttpResponse) (rest : List HttpResponse)
    (hstream : env.stream = r1 :: r2 :: rest) (hsends : env.sends = [])
    (h401 : r1.status = 401)
    (hvalid : ¬ env.auth.is_access_expired env.now env.leeway) :
    request retries .original env =
      finish (.ok r2, { env with stream := rest, sends := [Route.original, Route.original] }) := by
  obtain ⟨auth, stream, sends, now, leeway⟩ := env
  simp only at hstream hsends hvalid ⊢
  subst hstream hsends
  simp [request, send, refresh_access_token_nolock, hvalid, h401]

/-- C2 (amended): on a first response of 401 the executor invokes the
refresh operation subject to the expiry re-check — with a cached access
token that is not expired beyond leeway the refresh is a no-op — then
resends the original request exactly once and classifies the retry's
response: exactly two sends of the original request, no auth-endpoint
exchange, the retry's response returned when non-error, and when the
retry is again a 401 with a recognized error key the raised DomainError
carries status 401. -/
theorem C2_401_expiry_checked_refresh_single_resend
    (retries : Nat) (env : Env) (r1 r2 : HttpResponse) (rest : List HttpResponse)
    (hstream : env.stream = r1 :: r2 :: rest) (hsends : env.sends = [])
    (h401 : r1.status = 401)
    (hvalid : ¬ env.auth.is_access_expired env.now env.leeway) :
    (request retries .original env).2.sends = [Route.original, Route.original] ∧
    (¬ r2.is_error → (request retries .original env).1 = .ok r2) ∧
    (r2.is_error → (request retries .original env).1 = .error (handle_error r2)) ∧
    (r2.status = 401 → error_message r2 ∈ qpayErrorKeys →
      (request retries .original env).1 = .error (.qpay 401 (error_message r2))) := by
  have hred := request_401_not_expired retries env r1 r2 rest hstream hsends h401 hvalid
  rw [hred]
  refine ⟨by rw [finish_snd], ?_, ?_, ?_⟩
  · intro h; simp [finish, h]
  · intro h; simp [finish, h]
  · intro hs hk
    have herr : r2.is_error := by simp [HttpResponse.is_error, hs]
    have hmsg : handle_error r2 = .qpay 401 (error_message r2) := by
      simp [handle_error, hs, hk, qpayErrorCodes]
    simp [finish, herr, hmsg]

/-- C2 witness: the amended theorem applied to the concrete scenario of a
valid cached token and responses 401 then 200. -/
theorem C2_401_amended_witness :
    (request 5 .original C2env).2.sends = [Route.original, Route.original] ∧
    (request 5 .original C2env).1 = .ok r200 := by
  have h := C2_401_expiry_checked_refresh_single_resend 5 C2env r401 r200 []
    (by decide) (by decide) (by decide) (by decide)
  exact ⟨h.1, h.2.1 (by decide)⟩

theorem send_error_eq (route : Route) (env : Env) (e : PyError)
    (h : (send route env).1 = .error e) : e = .streamExhausted := by
  unfold send at h
  rcases henv : env.stream with _ | ⟨r, rest⟩ <;> rw [henv] at h <;> simp at h
  exact h.symm

theorem retry_loop_error_eq (k : Nat) :
    ∀ route cur env e, (retry_loop k route cur env).1 = .error e →
      e = .streamExhausted := by
  induction k with
  | zero => intro route cur env e h; simp [retry_loop] at h
  | succ k ih =>
      intro route cur env e h
      rw [retry_loop] at h
      rcases hs : send route env with ⟨res, env'⟩
      rw [hs] at h
      cases res with
      | error e2 =>
          simp at h
          subst h
          exact send_error_eq route env e2 (by rw [hs])
      | ok r =>
          by_cases hsucc : r.is_success
          · simp [hsucc] at h
          · simp [hsucc] at h
            exact ih route r env' e h

theorem decode_token_error_eq (r : HttpResponse) (e : PyError)
    (h : decode_token r = .error e) : e = .validationError := by
  unfold decode_token at h
  rcases hj : r.json with _ | b
  · rw [hj] at h; simp at h; exact h.symm
  · rw [hj] at h
    rcases ht : b.token with _ | t
    · simp [ht] at h; exact h.symm
    · simp [ht] at h

theorem handle_error_qpay (r : HttpResponse) (c : Nat) (k : String)
    (h : handle_error r = .qpay c k) :
    c = r.status ∧ c ∈ qpayErrorCodes ∧ k ∈ qpayErrorKeys := by
  unfold handle_error at h
  split at h
  case isTrue hcond =>
      simp only [PyError.qpay.injEq] at h
      obtain ⟨h1, h2⟩ := h
      subst h1 h2
      exact ⟨rfl, hcond.1, hcond.2⟩
  case isFalse => simp at h

theorem finish_ok_not_error (p : Except PyError HttpResponse × Env)
    (r : HttpResponse) (h : (finish p).1 = .ok r) : ¬ r.is_error := by
  rcases p with ⟨res, env⟩
  cases res with
  | error e => simp [finish] at h
  | ok r0 =>
      by_cases he : r0.is_error
      · simp [finish, he] at h
      · simp [finish, he] at h
        subst h
        exact he

theorem finish_qpay (p : Except PyError HttpResponse × Env) (c : Nat) (k : String)
    (h : (finish p).1 = .error (.qpay c k)) :
    p.1 = .error (.qpay c k) ∨
      ∃ r, p.1 = .ok r ∧ r.is_error ∧ handle_error r = .qpay c k := by
  rcases p with ⟨res, env⟩
  cases res with
  | error e =>
      left
      simp [finish] at h
      simp [h]
  | ok r =>
      by_cases he : r.is_error
      · right
        refine ⟨r, rfl, he, ?_⟩
        simpa [finish, he] using h
      · simp [finish, he] at h

theorem request_locked_qpay (n : Nat) (route : Route) (env : Env)
    (c : Nat) (k : String)
    (h : (request_locked n route env).1 = .error (.qpay c k)) :
    400 ≤ c ∧ c < 600 ∧ c ∈ qpayErrorCodes ∧ k ∈ qpayErrorKeys := by
  unfold request_locked at h
  rcases finish_qpay _ c k h with hinner | ⟨r, hr, herr, hh⟩
  · exfalso
    rcases hs : send route env with ⟨res, env'⟩
    rw [hs] at hinner
    cases res with
    | error e =>
        simp at hinner
        subst hinner
        have := send_error_eq route env _ (by rw [hs])
        simp at this
    | ok r1 =>
        by_cases h401 : r1.status = 401
        · simp [h401] at hinner
        · by_cases hsrv : r1.is_server_error
          · simp [h401, hsrv] at hinner
            have := retry_loop_error_eq n route r1 env' _ hinner
            simp at this
          · simp [h401, hsrv] at hinner
  · rcases hs : send route env with ⟨res, env'⟩
    rw [hs] at hr
    obtain ⟨hcs, hcc, hkk⟩ := handle_error_qpay r c k hh
    subst hcs
    obtain ⟨hlo, hhi⟩ := herr
    exact ⟨hlo, hhi, hcc, hkk⟩

theorem authenticate_nolock_qpay (env : Env) (c : Nat) (k : String)
    (h : (authenticate_nolock env).1 = .error (.qpay c k)) :
    400 ≤ c ∧ c < 600 ∧ c ∈ qpayErrorCodes ∧ k ∈ qpayErrorKeys := by
  unfold authenticate_nolock at h
  rcases hreq : request_locked defaultRetries .authToken env with ⟨res, env'⟩
  rw [hreq] at h
  cases res with
  | error e =>
      simp at h
      subst h
      exact request_locked_qpay defaultRetries .authToken env c k (by rw [hreq])
  | ok r =>
      rcases hdec : decode_token r with e | t
      · simp [hdec] at h
        subst h
        have := decode_token_error_eq r _ hdec
        simp at this
      · simp [hdec] at h

theorem refresh_nolock_qpay (env : Env) (c : Nat) (k : String)
    (h : (refresh_access_token_nolock env).1 = .error (.qpay c k)) :
    400 ≤ c ∧ c < 600 ∧ c ∈ qpayErrorCodes ∧ k ∈ qpayErrorKeys := by
  unfold refresh_access_token_nolock at h
  by_cases h1 : ¬ env.auth.is_access_expired env.now env.leeway
  · rw [if_pos h1] at h
    simp at h
  · rw [if_neg h1] at h
    by_cases h2 : env.auth.is_refresh_expired env.now env.leeway
    · rw [if_pos h2] at h
      exact authenticate_nolock_qpay env c k h
    · rw [if_neg h2] at h
      rcases hreq : request_locked defaultRetries .authRefresh env with ⟨res, env'⟩
      rw [hreq] at h
      cases res with
      | error e =>
          simp at h
          subst h
          exact request_locked_qpay defaultRetries .authRefresh env c k (by rw [hreq])
      | ok r =>
          by_cases hsucc : r.is_success
          · simp [hsucc] at h
            rcases hdec : decode_token r with e | t
            · rw [hdec] at h
              simp at h
              subst h
              have := decode_token_error_eq r _ hdec
              simp at this
            · rw [hdec] at h
              simp at h
          · simp [hsucc] at h
            exact authenticate_nolock_qpay env' c k h

theorem request_qpay (n : Nat) (route : Route) (env : Env) (c : Nat) (k : String)
    (h : (request n route env).1 = .error (.qpay c k)) :
    400 ≤ c ∧ c < 600 ∧ c ∈ qpayErrorCodes ∧ k ∈ qpayErrorKeys := by
  unfold request at h
  rcases finish_qpay _ c k h with hinner | ⟨r, hr, herr, hh⟩
  · rcases hs : send route env with ⟨res, env'⟩
    rw [hs] at hinner
    cases res with
    | error e =>
        simp at hinner
        subst hinner
        have := send_error_eq route env _ (by rw [hs])
        simp at this
    | ok r1 =>
        by_cases h401 : r1.status = 401
        · simp [h401] at hinner
          rcases hrf : refresh_access_token_nolock env' with ⟨res2, env''⟩
          rw [hrf] at hinner
          cases res2 with
          | error e2 =>
              simp at hinner
              subst hinner
              exact refresh_nolock_qpay env' c k (by rw [hrf])
          | ok u =>
              simp at hinner
              have := send_error_eq route env'' _ hinner
              simp at this
        · by_cases hsrv : r1.is_server_error
          · simp [h401, hsrv] at hinner
            have := retry_loop_error_eq n route r1 env' _ hinner
            simp at this
          · simp [h401, hsrv] at hinner
  · obtain ⟨hcs, hcc, hkk⟩ := handle_error_qpay r c k hh
    subst hcs
    obtain ⟨hlo, hhi⟩ := herr
    exact ⟨hlo, hhi, hcc, hkk⟩

theorem request_ok_not_error (n : Nat) (route : Route) (env : Env)
    (r : HttpResponse) (h : (request n route env).1 = .ok r) : ¬ r.is_error := by
  unfold request at h
  exact finish_ok_not_error _ r h

theorem invoice_cancel_ok_status (n : Nat) (env : Env) (s : Nat)
    (h : (invoice_cancel_run n env).1 = .ok s) : ¬ (400 ≤ s ∧ s < 600) := by
  unfold invoice_cancel_run at h
  rcases hg : get_token env with ⟨res, env'⟩
  rw [hg] at h
  cases res with
  | error e => simp at h
  | ok t =>
      rcases hr : request n .original env' with ⟨res2, env''⟩
      simp only [hr] at h
      cases res2 with
      | error e => simp at h
      | ok r =>
          simp at h
          subst h
          have := request_ok_not_error n .original env' r (by rw [hr])
          simpa [HttpResponse.is_error] using this

/-- C10 (amended): the executor raises an exception exactly on error-status
final responses, but the exception is a DomainError only when the status is
one of the enumerated `QPayErrorCode`s and the error key one of the
enumerated `QPayErrorKey`s (otherwise the error-reporting step raises
`ValueError`); every response the executor returns is non-error, and hence
the bare-status operations (`invoice_cancel`, `payment_cancel`,
`payment_refund`, `subscription_cancel`) can only return a non-error
status code. -/
theorem C10_returned_responses_never_error :
    (∀ retries route env r,
      (request retries route env).1 = .ok r → ¬ r.is_error) ∧
    (∀ retries route env c k,
      (request retries route env).1 = .error (.qpay c k) →
        400 ≤ c ∧ c < 600 ∧ c ∈ qpayErrorCodes ∧ k ∈ qpayErrorKeys) ∧
    (∀ retries env s,
      (invoice_cancel_run retries env).1 = .ok s → ¬ (400 ≤ s ∧ s < 600)) :=
  ⟨fun retries route env r h => request_ok_not_error retries route env r h,
   fun retries route env c k h => request_qpay retries route env c k h,
   fun retries env s h => invoice_cancel_ok_status retries env s h⟩

/-- C10 witness: the amended theorem applied to a 204 cancel response — the
executor returns it (it is non-error) and the status-returning operation
yields 204, a non-error code. -/
theorem C10_amended_witness :
    ¬ ({ status := 204 } : HttpResponse).is_error ∧
    ¬ (400 ≤ 204 ∧ 204 < 600) :=
  ⟨C10_returned_responses_never_error.1 5 .original C10wenv { status := 204 }
      (by decide),
   C10_returned_responses_never_error.2.2 5 C10wenv 204 (by decide)⟩

theorem client_get_token_action_matches_claim (st : QpayAuthState) (now leeway : ℤ) :
    (¬ st.has_access_token ∨ st.is_refresh_expired now leeway →
      client_get_token_action st now leeway = .authenticate) ∧
    (st.has_access_token → ¬ st.is_refresh_expired now leeway →
      st.is_access_expired now leeway →
      client_get_token_action st now leeway = .refresh) ∧
    (st.has_access_token → ¬ st.is_refresh_expired now leeway →
      ¬ st.is_access_expired now leeway →
      client_get_token_action st now leeway = .useCached) := by
  refine ⟨fun h => ?_, fun h1 h2 h3 => ?_, fun h1 h2 h3 => ?_⟩ <;>
    simp [client_get_token_action, *]

theorem get_token_cached_no_exchange (env : Env)
    (h1 : env.auth.has_access_token)
    (h2 : ¬ env.auth.is_refresh_expired env.now env.leeway)
    (h3 : ¬ env.auth.is_access_expired env.now env.leeway) :
    get_token env = (env.auth.get_access_token, env) := by
  unfold get_token
  have ha : client_get_token_action env.auth env.now env.leeway = .useCached := by
    simp [client_get_token_action, h1, h2, h3]
  rw [ha]

theorem not_error_of_success (r : HttpResponse) (h : r.is_success) :
    ¬ r.is_error := by
  simp only [HttpResponse.is_success] at h
  simp only [HttpResponse.is_error]
  omega

theorem request_5xx_success_on_first_retry
    (k : Nat) (env : Env) (r1 r2 : HttpResponse) (rest : List HttpResponse)
    (hstream : env.stream = r1 :: r2 :: rest) (hsends : env.sends = [])
    (hsrv : r1.is_server_error) (hsucc : r2.is_success) :
    request (k + 1) .original env =
      (.ok r2, { env with stream := rest, sends := [Route.original, Route.original] }) := by
  obtain ⟨auth, stream, sends, now, leeway⟩ := env
  simp only at hstream hsends ⊢
  subst hstream hsends
  have h401 : ¬ r1.status = 401 := by
    simp only [HttpResponse.is_server_error] at hsrv
    omega
  have herr : ¬ r2.is_error := not_error_of_success r2 hsucc
  simp [request, send, retry_loop, h401, hsrv, hsucc, finish, herr]
